import Mathlib

/-!
Shallow embedding of the orchestration pipeline in `check50/__main__.py`:
option resolution (`validate_args`), the process-wide exception hook
(`excepthook`), the remote result-polling loop (`await_results`) and the
invalid-slug error message (`raise_invalid_slug`).

Pure data is modelled directly; the effectful parts are modelled by
returning the externally observable events (emitted output, warnings,
exit action, number of HTTP queries issued) explicitly.
-/

namespace Check50

/-- Log levels, mirroring `class LogLevel(enum.IntEnum)` with the numeric
values of the Python `logging` module. -/
inductive LogLevel
  | DEBUG
  | INFO
  | WARNING
  | ERROR
deriving DecidableEq

/-- Numeric value of a log level (`logging.DEBUG = 10` and so on),
used for the `IntEnum` order comparisons. -/
def LogLevel.toNat : LogLevel → Nat
  | .DEBUG => 10
  | .INFO => 20
  | .WARNING => 30
  | .ERROR => 40

/-- Textual name of a log level, as keyed in `LogLevel.__members__`. -/
def LogLevel.levelName : LogLevel → String
  | .DEBUG => "DEBUG"
  | .INFO => "INFO"
  | .WARNING => "WARNING"
  | .ERROR => "ERROR"

/-- The three output channels accepted by `--output` (`choices=["ansi", "json", "html"]`). -/
inductive Output
  | ansi
  | json
  | html
deriving DecidableEq

/-- The `args.log_level` attribute is a string as parsed from the command
line, and is overwritten by `validate_args` with the `LogLevel` enum member
(`args.log_level = LogLevel.__members__[args.log_level.upper()]`). -/
inductive LogLevelField
  | name (s : String)
  | level (l : LogLevel)
deriving DecidableEq

/-- Python `str.upper`, character by character (the log-level names are
plain ASCII). -/
def upper (s : String) : String :=
  ⟨s.data.map Char.toUpper⟩

/-- Model of `LogLevel.__members__[x.upper()]`: defined on strings (a bad
name raises `KeyError`, modelled as `none`), and always failing when the
field already holds an enum member, since an enum member has no `.upper()`
(Python `AttributeError`), as happens after one round of `validate_args`. -/
def parseLogLevel : LogLevelField → Option LogLevel
  | .name s =>
    let u := upper s
    if u = "DEBUG" then some LogLevel.DEBUG
    else if u = "INFO" then some LogLevel.INFO
    else if u = "WARNING" then some LogLevel.WARNING
    else if u = "ERROR" then some LogLevel.ERROR
    else none
  | .level _ => none

/-- The argparse namespace consumed and mutated by `validate_args`.
`local_` stands for the Python attribute `local` (a Lean keyword);
`ansi_output` is the attribute created out of thin air by the `args.dev`
branch (`args.ansi_output = True`). -/
@[ext]
structure Args where
  slug : String
  dev : Bool
  offline : Bool
  local_ : Bool
  output : List Output
  target : Option (List String)
  output_file : Option String
  verbose : Bool
  log_level : LogLevelField
  ansi_log : Bool
  no_download_checks : Bool
  no_install_dependencies : Bool
  ansi_output : Bool
deriving DecidableEq

/-- The non-fatal `LOGGER.warning` calls made by `validate_args`. -/
inductive Warning
  | uselessArgs (names : List String)
  | duplicateOutput (o : Output)
  | ansiLogNoEffect
deriving DecidableEq

/-- Whether a warning is a duplicate-output-format warning. -/
def Warning.isDup : Warning → Bool
  | .duplicateOutput _ => true
  | _ => false

/-- First block of `validate_args`: `if args.dev:` sets `offline` and
`verbose`, and sets `ansi_output` when `"ansi" in args.output`. -/
def applyDev (a : Args) : Args :=
  if a.dev then
    { a with
      offline := true
      verbose := true
      ansi_output := if Output.ansi ∈ a.output then true else a.ansi_output }
  else a

/-- Second block of `validate_args`: `if args.offline:` sets
`no_install_dependencies`, `no_download_checks` and `local`. -/
def applyOffline (a : Args) : Args :=
  if a.offline then
    { a with
      no_install_dependencies := true
      no_download_checks := true
      local_ := true }
  else a

/-- The warning emitted when running remotely with `no_download_checks` or
`no_install_dependencies` set (`if not args.local: ... LOGGER.warning`). -/
def uselessWarnings (a : Args) : List Warning :=
  if a.local_ then []
  else
    let names :=
      (if a.no_download_checks then ["--no-downloads-checks"] else []) ++
        (if a.no_install_dependencies then ["--no-install-dependencies"] else [])
    if names.isEmpty then [] else [Warning.uselessArgs names]

/-- The duplicate-filtering loop of `validate_args`: `seen_output = []`,
then for each entry either warn (already seen) or append to `seen_output`.
Returns the final `seen_output` and the warnings, in order. -/
def dedupLoop : List Output → List Output → List Output × List Warning
  | seen, [] => (seen, [])
  | seen, o :: rest =>
    if o ∈ seen then
      let r := dedupLoop seen rest
      (r.1, Warning.duplicateOutput o :: r.2)
    else
      dedupLoop (seen ++ [o]) rest

/-- Last block of `validate_args`: if `"ansi"` is among the output formats
and the log level is at most `INFO`, set `ansi_log`; otherwise warn when
`--ansi-log` was requested without the ansi channel. -/
def applyAnsiLog (a : Args) (lvl : LogLevel) : Args × List Warning :=
  if Output.ansi ∈ a.output then
    (if lvl.toNat ≤ LogLevel.INFO.toNat then { a with ansi_log := true } else a, [])
  else if a.ansi_log then (a, [Warning.ansiLogNoEffect])
  else (a, [])

/-- Model of `validate_args` from `check50/__main__.py`: applies the dev and
offline implication blocks, converts `log_level` to its enum member, then
emits the remote-useless-flags warning, filters duplicate output formats and
applies the ansi-log default.  The `setup_logging` call is an external side
effect and is not modelled.  Returns `none` when the log-level conversion
fails. -/
def validate_args (a0 : Args) : Option (Args × List Warning) :=
  let a1 := applyOffline (applyDev a0)
  match parseLogLevel a1.log_level with
  | none => none
  | some lvl =>
    let a2 := { a1 with log_level := LogLevelField.level lvl }
    let w1 := uselessWarnings a2
    let d := dedupLoop [] a2.output
    let a3 := { a2 with output := d.1 }
    let r := applyAnsiLog a3 lvl
    some (r.1, w1 ++ d.2 ++ r.2)

/-- Modelled from the spec: the resolved output-channel sequence "contains
no duplicate values and preserves first-occurrence order".  Stated
independently of the source loop, to be compared with `dedupLoop`. -/
def firstOccurrenceDedup : List Output → List Output
  | [] => []
  | o :: rest => o :: firstOccurrenceDedup (rest.filter (fun x => x ≠ o))
termination_by l => l.length
decreasing_by
  simp only [List.length_cons]
  exact Nat.lt_succ_of_le (List.length_filter_le _ _)

/-- Replace an already-converted log level by its textual name again,
leaving every other field of the plan unchanged. -/
def restoreLogLevelName (a : Args) : Args :=
  { a with
    log_level :=
      match a.log_level with
      | .level l => LogLevelField.name l.levelName
      | f => f }

/-- Closed-form description of the plan produced by `validate_args` (proved
equal to it in `validate_args_eq` below). -/
def mkResolved (a : Args) (lvl : LogLevel) : Args :=
  { applyOffline (applyDev a) with
    log_level := LogLevelField.level lvl
    output := (dedupLoop [] a.output).1
    ansi_log :=
      if Output.ansi ∈ (dedupLoop [] a.output).1 then
        (if lvl.toNat ≤ LogLevel.INFO.toNat then true else a.ansi_log)
      else a.ansi_log }

/-- Closed-form description of the warnings emitted by `validate_args`. -/
def mkWarnings (a : Args) (lvl : LogLevel) : List Warning :=
  uselessWarnings { applyOffline (applyDev a) with log_level := LogLevelField.level lvl } ++
    (dedupLoop [] a.output).2 ++
    (if Output.ansi ∈ (dedupLoop [] a.output).1 then []
     else if a.ansi_log then [Warning.ansiLogNoEffect]
     else [])

/-- The exception class reaching `sys.excepthook`, collapsed to the five
behavioral cases distinguished by the `elif` chain in `excepthook`:
a domain error (`internal.Error` / `lib50.Error` with non-empty `args`),
`FileNotFoundError`, `KeyboardInterrupt`, a `BaseException` that is not an
`Exception` (and none of the previous), and any other `Exception`. -/
inductive ExcKind
  | domainError
  | fileNotFound
  | keyboardInterrupt
  | otherBase
  | unexpected
deriving DecidableEq

/-- Observable output emitted by `excepthook` while servicing a channel. -/
inductive Event
  | jsonError
  | printedDomain
  | printedNotFound
  | printedCancelled
  | printedGeneric
  | printedTrace
deriving DecidableEq

/-- How the `excepthook` call ends: an explicit `sys.exit(code)`, or a
plain `return` out of the function. -/
inductive ExitAction
  | exited (code : Nat)
  | returned
deriving DecidableEq

/-- What the `ansi`/`html` branch of `excepthook` prints for a given
exception kind, followed by the verbose traceback when requested.  The
`otherBase` case is unreachable here (the loop returns first). -/
def ansiEvents (k : ExcKind) (verbose : Bool) : List Event :=
  (match k with
   | .domainError => [Event.printedDomain]
   | .fileNotFound => [Event.printedNotFound]
   | .keyboardInterrupt => [Event.printedCancelled]
   | .otherBase => []
   | .unexpected => [Event.printedGeneric]) ++
    (if verbose then [Event.printedTrace] else [])

/-- Output emitted for one serviced channel inside the `excepthook` loop. -/
def channelEvents (k : ExcKind) (verbose : Bool) : Output → List Event
  | .json => [Event.jsonError]
  | .ansi => ansiEvents k verbose
  | .html => ansiEvents k verbose

/-- The `for output in excepthook.outputs: outputs.remove(output) ...` loop,
with Python's for-statement semantics made explicit: an index `i` walks the
list while `outputs.remove(output)` (here `List.erase`) mutates the very
list being iterated.  For a non-`Exception` `BaseException` reaching the
`ansi`/`html` branch the function returns; once the index falls off the end
the hook calls `sys.exit(1)`. -/
def excepthookLoop (k : ExcKind) (verbose : Bool) (outputs : List Output) (i : Nat) :
    List (Output × List Event) × ExitAction :=
  if h : i < outputs.length then
    if k = ExcKind.otherBase ∧
        (outputs.get ⟨i, h⟩ = Output.ansi ∨ outputs.get ⟨i, h⟩ = Output.html) then
      ([], ExitAction.returned)
    else
      let r := excepthookLoop k verbose (outputs.erase (outputs.get ⟨i, h⟩)) (i + 1)
      ((outputs.get ⟨i, h⟩, channelEvents k verbose (outputs.get ⟨i, h⟩)) :: r.1, r.2)
  else ([], ExitAction.exited 1)
termination_by outputs.length
decreasing_by
  have hm : outputs.get ⟨i, h⟩ ∈ outputs := outputs.get_mem _ _
  rw [List.length_erase_of_mem hm]
  omega

/-- Model of `excepthook`: the list of channels actually serviced (with the
output each received) and the way the call ends. -/
def excepthook (k : ExcKind) (outputs : List Output) (verbose : Bool) :
    List (Output × List Event) × ExitAction :=
  excepthookLoop k verbose outputs 0

/-- The nested `results["check50"]` object of a remote results payload:
its `slug`, `results` and `version` fields plus whether an `"error"` key
is present.  The individual check records are kept opaque (strings). -/
structure Check50Payload where
  slug : String
  results : List String
  version : String
  hasError : Bool
deriving DecidableEq

/-- The parsed JSON body of one response of the results endpoint, together
with its HTTP status code. -/
structure Response where
  status : Nat
  received_at : Option String
  check50 : Option Check50Payload
  tag_hash : String
deriving DecidableEq

/-- The unified result payload `await_results` returns on success. -/
structure ResultPayload where
  slug : String
  results : List String
  version : String
deriving DecidableEq

/-- The failures `await_results` can raise: `RemoteCheckError` carrying the
whole response body, `RemoteCheckError` carrying `results["check50"]`, and
the `internal.Error` timeout naming the commit hash. -/
inductive RemoteErr
  | serviceBody (body : Response)
  | serviceCheck50 (body : Check50Payload)
  | timeout (commit_hash : String)
deriving DecidableEq

/-- Whether a failure is a `RemoteCheckError` (as opposed to the timeout). -/
def RemoteErr.isService : RemoteErr → Bool
  | .timeout _ => false
  | _ => true

/-- A response on which the polling loop keeps going: status 404, or
status 200 whose `received_at` is still null. -/
def notReady (r : Response) : Prop :=
  r.status = 404 ∨ (r.status = 200 ∧ r.received_at = none)

/-- A response that ends the loop successfully: status 200 with a non-null
`received_at`. -/
def isReady (r : Response) : Prop :=
  r.status = 200 ∧ r.received_at ≠ none

/-- A response with an HTTP status outside both 200 and 404. -/
def badStatus (r : Response) : Prop :=
  r.status ≠ 404 ∧ r.status ≠ 200

/-- Outcome of the `for _i in range(pings)` loop in `await_results`. -/
inductive LoopOut
  | timedOut
  | badStatus (r : Response)
  | ready (r : Response)
deriving DecidableEq

/-- The polling loop of `await_results`: attempt `i` issues one GET (its
response is `resp i`), raises on a status outside 200 / 404, breaks on a
ready response, and otherwise sleeps and continues; running out of fuel is
the `for ... else` timeout.  The first component counts the queries issued;
the sleeps are not modelled. -/
def pollLoop (resp : Nat → Response) (i : Nat) : Nat → Nat × LoopOut
  | 0 => (0, LoopOut.timedOut)
  | fuel + 1 =>
    let res := resp i
    if ¬ (res.status = 404 ∨ res.status = 200) then (1, LoopOut.badStatus res)
    else if res.status = 200 ∧ res.received_at ≠ none then (1, LoopOut.ready res)
    else
      let r := pollLoop resp (i + 1) fuel
      (r.1 + 1, r.2)

/-- Model of `await_results`: run the polling loop (default `pings=45`),
then on the broken-out response fail when `results["check50"]` is falsy or
carries an `"error"` key, and otherwise return the tag hash and the unified
result payload.  The first component is the number of queries issued. -/
def await_results (resp : Nat → Response) (commit_hash slug : String) (pings : Nat) :
    Nat × Except RemoteErr (String × ResultPayload) :=
  let r := pollLoop resp 0 pings
  (r.1,
    match r.2 with
    | .timedOut => Except.error (RemoteErr.timeout commit_hash)
    | .badStatus res => Except.error (RemoteErr.serviceBody res)
    | .ready res =>
      match res.check50 with
      | none => Except.error (RemoteErr.serviceBody res)
      | some p =>
        if p.hasError then Except.error (RemoteErr.serviceCheck50 p)
        else Except.ok (res.tag_hash, { slug := p.slug, results := p.results, version := p.version }))

/-- The default number of pings of `await_results`. -/
def default_pings : Nat := 45

/-- The suggestion list actually shown by `raise_invalid_slug`:
`lib50.get_local_slugs("check50", similar_to=slug)[:3]`. -/
def shownSuggestions (similar_slugs : List String) : List String :=
  similar_slugs.take 3

/-- Model of `raise_invalid_slug`: the message of the `internal.Error` it
raises, built from the slug, the similarity-search result and the offline
flag. -/
def raise_invalid_slug (slug : String) (similar_slugs : List String) (offline : Bool) : String :=
  let msg := "Could not find checks for " ++ slug ++ "."
  let shown := shownSuggestions similar_slugs
  let msg :=
    if shown.isEmpty then msg
    else
      (shown.foldl (fun m s => m ++ "\n    " ++ s) (msg ++ " Did you mean:")) ++
        "\nDo refer back to the problem specification if unsure."
  if offline then
    msg ++ "\nIf you are confident the slug is correct and you have an internet connection, try running without --offline."
  else msg

/-! Concrete argument sets and responses used to evaluate the model. -/

/-- The argparse namespace for a plain `check50 <slug>` invocation, with
every option at its parser default (`--output` defaults to
`["ansi", "html"]`, `--log-level` to `"WARNING"`). -/
def baseArgs : Args :=
  { slug := "cs50/problems/2022/hello"
    dev := false
    offline := false
    local_ := false
    output := [Output.ansi, Output.html]
    target := none
    output_file := none
    verbose := false
    log_level := LogLevelField.name "WARNING"
    ansi_log := false
    no_download_checks := false
    no_install_dependencies := false
    ansi_output := false }

/-- `check50 --dev <slug>` with the log-level option left at its default. -/
def devDefaultArgs : Args :=
  { baseArgs with dev := true }

/-- The plan `validate_args` produces for `devDefaultArgs`. -/
def devResolved : Args :=
  { devDefaultArgs with
    offline := true
    verbose := true
    local_ := true
    no_download_checks := true
    no_install_dependencies := true
    ansi_output := true
    log_level := LogLevelField.level LogLevel.WARNING }

/-- `check50 --local -o html ansi html <slug>`: duplicate output channels. -/
def dupArgs : Args :=
  { baseArgs with
    local_ := true
    output := [Output.html, Output.ansi, Output.html] }

/-- The plan `validate_args` produces for `dupArgs`. -/
def dupResolved : Args :=
  { dupArgs with
    log_level := LogLevelField.level LogLevel.WARNING
    output := [Output.html, Output.ansi] }

/-- A not-yet-ready poll response: status 404. -/
def notReadyResp : Response :=
  { status := 404, received_at := none, check50 := none, tag_hash := "" }

/-- A well-formed nested `check50` result object. -/
def goodPayload : Check50Payload :=
  { slug := "cs50/problems/2022/hello"
    results := ["check passed"]
    version := "3.3.7"
    hasError := false }

/-- A ready response carrying a well-formed result. -/
def readyResp : Response :=
  { status := 200
    received_at := some "2026-10-12T00:00:00Z"
    check50 := some goodPayload
    tag_hash := "tag123" }

/-- End-to-end scenario B: 44 consecutive 404 responses followed by a
ready response on poll 45. -/
def scenarioB : Nat → Response := fun i =>
  if i < 44 then notReadyResp else readyResp

/-- A ready (status 200, timestamped) response whose nested `check50`
result is absent. -/
def readyEmptyResp : Response :=
  { status := 200, received_at := some "2026-10-12T00:00:00Z", check50 := none, tag_hash := "" }

/-- A response with HTTP status 500. -/
def resp500 : Response :=
  { status := 500, received_at := none, check50 := none, tag_hash := "" }

/-! Field-level descriptions of the stages of `validate_args`. -/

theorem applyDev_slug (a : Args) : (applyDev a).slug = a.slug := by
  cases h : a.dev <;> simp [applyDev, h]

theorem applyDev_dev (a : Args) : (applyDev a).dev = a.dev := by
  cases h : a.dev <;> simp [applyDev, h]

theorem applyDev_offline (a : Args) : (applyDev a).offline = (a.dev || a.offline) := by
  cases h : a.dev <;> simp [applyDev, h]

theorem applyDev_local (a : Args) : (applyDev a).local_ = a.local_ := by
  cases h : a.dev <;> simp [applyDev, h]

theorem applyDev_output (a : Args) : (applyDev a).output = a.output := by
  cases h : a.dev <;> simp [applyDev, h]

theorem applyDev_target (a : Args) : (applyDev a).target = a.target := by
  cases h : a.dev <;> simp [applyDev, h]

theorem applyDev_output_file (a : Args) : (applyDev a).output_file = a.output_file := by
  cases h : a.dev <;> simp [applyDev, h]

theorem applyDev_verbose (a : Args) : (applyDev a).verbose = (a.dev || a.verbose) := by
  cases h : a.dev <;> simp [applyDev, h]

theorem applyDev_log_level (a : Args) : (applyDev a).log_level = a.log_level := by
  cases h : a.dev <;> simp [applyDev, h]

theorem applyDev_ansi_log (a : Args) : (applyDev a).ansi_log = a.ansi_log := by
  cases h : a.dev <;> simp [applyDev, h]

theorem applyDev_ndc (a : Args) : (applyDev a).no_download_checks = a.no_download_checks := by
  cases h : a.dev <;> simp [applyDev, h]

theorem applyDev_nid (a : Args) :
    (applyDev a).no_install_dependencies = a.no_install_dependencies := by
  cases h : a.dev <;> simp [applyDev, h]

theorem applyDev_ansi_output (a : Args) :
    (applyDev a).ansi_output =
      if a.dev = true then
        (if Output.ansi ∈ a.output then true else a.ansi_output)
      else a.ansi_output := by
  cases h : a.dev <;> simp [applyDev, h]

theorem applyOffline_slug (a : Args) : (applyOffline a).slug = a.slug := by
  cases h : a.offline <;> simp [applyOffline, h]

theorem applyOffline_dev (a : Args) : (applyOffline a).dev = a.dev := by
  cases h : a.offline <;> simp [applyOffline, h]

theorem applyOffline_offline (a : Args) : (applyOffline a).offline = a.offline := by
  cases h : a.offline <;> simp [applyOffline, h]

theorem applyOffline_local (a : Args) : (applyOffline a).local_ = (a.offline || a.local_) := by
  cases h : a.offline <;> simp [applyOffline, h]

theorem applyOffline_output (a : Args) : (applyOffline a).output = a.output := by
  cases h : a.offline <;> simp [applyOffline, h]

theorem applyOffline_target (a : Args) : (applyOffline a).target = a.target := by
  cases h : a.offline <;> simp [applyOffline, h]

theorem applyOffline_output_file (a : Args) : (applyOffline a).output_file = a.output_file := by
  cases h : a.offline <;> simp [applyOffline, h]

theorem applyOffline_verbose (a : Args) : (applyOffline a).verbose = a.verbose := by
  cases h : a.offline <;> simp [applyOffline, h]

theorem applyOffline_log_level (a : Args) : (applyOffline a).log_level = a.log_level := by
  cases h : a.offline <;> simp [applyOffline, h]

theorem applyOffline_ansi_log (a : Args) : (applyOffline a).ansi_log = a.ansi_log := by
  cases h : a.offline <;> simp [applyOffline, h]

theorem applyOffline_ndc (a : Args) :
    (applyOffline a).no_download_checks = (a.offline || a.no_download_checks) := by
  cases h : a.offline <;> simp [applyOffline, h]

theorem applyOffline_nid (a : Args) :
    (applyOffline a).no_install_dependencies = (a.offline || a.no_install_dependencies) := by
  cases h : a.offline <;> simp [applyOffline, h]

theorem applyOffline_ansi_output (a : Args) : (applyOffline a).ansi_output = a.ansi_output := by
  cases h : a.offline <;> simp [applyOffline, h]

theorem applyAnsiLog_fst (a : Args) (lvl : LogLevel) :
    (applyAnsiLog a lvl).1 =
      { a with
        ansi_log :=
          if Output.ansi ∈ a.output then
            (if lvl.toNat ≤ LogLevel.INFO.toNat then true else a.ansi_log)
          else a.ansi_log } := by
  unfold applyAnsiLog
  split_ifs <;> rfl

theorem applyAnsiLog_snd (a : Args) (lvl : LogLevel) :
    (applyAnsiLog a lvl).2 =
      (if Output.ansi ∈ a.output then []
       else if a.ansi_log then [Warning.ansiLogNoEffect]
       else []) := by
  unfold applyAnsiLog
  split_ifs <;> rfl

theorem parse_levelName (l : LogLevel) :
    parseLogLevel (LogLevelField.name l.levelName) = some l := by
  cases l <;> decide

/-! Properties of the duplicate-filtering loop. -/

theorem firstOccurrenceDedup_nil : firstOccurrenceDedup [] = [] := by
  rw [firstOccurrenceDedup.eq_def]

theorem firstOccurrenceDedup_cons (o : Output) (rest : List Output) :
    firstOccurrenceDedup (o :: rest) =
      o :: firstOccurrenceDedup (rest.filter (fun x => x ≠ o)) := by
  rw [firstOccurrenceDedup.eq_def]

theorem dedupLoop_fst_mem (l : List Output) :
    ∀ seen x, x ∈ (dedupLoop seen l).1 ↔ x ∈ seen ∨ x ∈ l := by
  induction l with
  | nil => intro seen x; simp [dedupLoop]
  | cons o rest ih =>
    intro seen x
    by_cases h : o ∈ seen
    · simp only [dedupLoop, if_pos h]
      rw [ih]
      simp only [List.mem_cons]
      constructor
      · rintro (hs | hr)
        · exact Or.inl hs
        · exact Or.inr (Or.inr hr)
      · rintro (hs | rfl | hr)
        · exact Or.inl hs
        · exact Or.inl h
        · exact Or.inr hr
    · simp only [dedupLoop, if_neg h]
      rw [ih]
      simp only [List.mem_append, List.mem_singleton, List.mem_cons]
      tauto

theorem dedupLoop_fst_nodup (l : List Output) :
    ∀ seen, seen.Nodup → ((dedupLoop seen l).1).Nodup := by
  induction l with
  | nil => intro seen hs; simpa [dedupLoop] using hs
  | cons o rest ih =>
    intro seen hs
    by_cases h : o ∈ seen
    · simp only [dedupLoop, if_pos h]
      exact ih seen hs
    · simp only [dedupLoop, if_neg h]
      refine ih _ ?_
      simp [List.nodup_append, hs, h]

theorem dedupLoop_nodup_fix (l : List Output) :
    ∀ seen, l.Nodup → (∀ x ∈ l, x ∉ seen) → dedupLoop seen l = (seen ++ l, []) := by
  induction l with
  | nil => intro seen _ _; simp [dedupLoop]
  | cons o rest ih =>
    intro seen hnd hdisj
    have ho : o ∉ seen := hdisj o (by simp)
    simp only [dedupLoop, if_neg ho]
    rw [ih (seen ++ [o]) (List.Nodup.of_cons hnd) ?_]
    · simp
    · intro x hx
      simp only [List.mem_append, List.mem_singleton]
      rintro (hxs | rfl)
      · exact hdisj x (List.mem_cons_of_mem _ hx) hxs
      · exact (List.nodup_cons.1 hnd).1 hx

theorem dedupLoop_length (l : List Output) :
    ∀ seen, (dedupLoop seen l).1.length + (dedupLoop seen l).2.length =
      seen.length + l.length := by
  induction l with
  | nil => intro seen; simp [dedupLoop]
  | cons o rest ih =>
    intro seen
    by_cases h : o ∈ seen
    · simp only [dedupLoop, if_pos h, List.length_cons]
      have := ih seen
      omega
    · simp only [dedupLoop, if_neg h, List.length_cons]
      have := ih (seen ++ [o])
      simp only [List.length_append, List.length_singleton] at this
      omega

theorem dedupLoop_snd_dup (l : List Output) :
    ∀ seen w, w ∈ (dedupLoop seen l).2 → w.isDup = true := by
  induction l with
  | nil => intro seen w hw; simp [dedupLoop] at hw
  | cons o rest ih =>
    intro seen w hw
    by_cases h : o ∈ seen
    · simp only [dedupLoop, if_pos h, List.mem_cons] at hw
      rcases hw with rfl | hw
      · rfl
      · exact ih seen w hw
    · simp only [dedupLoop, if_neg h] at hw
      exact ih _ w hw

theorem dedupLoop_fst_spec (l : List Output) :
    ∀ seen, (dedupLoop seen l).1 =
      seen ++ firstOccurrenceDedup (l.filter (fun x => decide (x ∉ seen))) := by
  induction l with
  | nil => intro seen; simp [dedupLoop, firstOccurrenceDedup]
  | cons o rest ih =>
    intro seen
    by_cases h : o ∈ seen
    · have hd : (fun x => decide (x ∉ seen)) o = false := by simp [h]
      simp only [dedupLoop, if_pos h, List.filter_cons, hd, if_neg Bool.false_ne_true]
      exact ih seen
    · have hd : (fun x => decide (x ∉ seen)) o = true := by simp [h]
      simp only [dedupLoop, if_neg h, List.filter_cons, hd, if_true]
      rw [ih (seen ++ [o])]
      rw [firstOccurrenceDedup_cons]
      have hfil : rest.filter (fun x => decide (x ∉ seen ++ [o])) =
          (rest.filter (fun x => decide (x ∉ seen))).filter (fun x => decide (x ≠ o)) := by
        rw [List.filter_filter]
        apply List.filter_congr
        intro x _
        simp only [List.mem_append, List.mem_singleton, not_or]
        by_cases h1 : x ∈ seen <;> by_cases h2 : x = o <;> simp [h1, h2]
      rw [hfil]
      simp

theorem dedupLoop_fst_firstOccurrenceDedup (l : List Output) :
    (dedupLoop [] l).1 = firstOccurrenceDedup l := by
  rw [dedupLoop_fst_spec l []]
  simp

/-! Closed form of `validate_args`. -/

theorem validate_args_eq (a : Args) (lvl : LogLevel)
    (h : parseLogLevel a.log_level = some lvl) :
    validate_args a = some (mkResolved a lvl, mkWarnings a lvl) := by
  simp only [validate_args, applyOffline_log_level, applyDev_log_level, h,
    applyOffline_output, applyDev_output, applyAnsiLog_fst, applyAnsiLog_snd,
    applyOffline_ansi_log, applyDev_ansi_log, mkResolved, mkWarnings]

theorem validate_args_none (a : Args) (h : parseLogLevel a.log_level = none) :
    validate_args a = none := by
  simp only [validate_args, applyOffline_log_level, applyDev_log_level, h]

theorem validate_args_inv (a r : Args) (ws : List Warning)
    (h : validate_args a = some (r, ws)) :
    ∃ lvl, parseLogLevel a.log_level = some lvl ∧
      r = mkResolved a lvl ∧ ws = mkWarnings a lvl := by
  cases hp : parseLogLevel a.log_level with
  | none => rw [validate_args_none a hp] at h; cases h
  | some lvl =>
    rw [validate_args_eq a lvl hp] at h
    simp only [Option.some.injEq, Prod.mk.injEq] at h
    exact ⟨lvl, rfl, h.1.symm, h.2.symm⟩

/-! Field values of the resolved plan. -/

theorem mkResolved_slug (a : Args) (lvl : LogLevel) : (mkResolved a lvl).slug = a.slug := by
  simp [mkResolved, applyOffline_slug, applyDev_slug]

theorem mkResolved_dev (a : Args) (lvl : LogLevel) : (mkResolved a lvl).dev = a.dev := by
  simp [mkResolved, applyOffline_dev, applyDev_dev]

theorem mkResolved_offline (a : Args) (lvl : LogLevel) :
    (mkResolved a lvl).offline = (a.dev || a.offline) := by
  simp [mkResolved, applyOffline_offline, applyDev_offline]

theorem mkResolved_local (a : Args) (lvl : LogLevel) :
    (mkResolved a lvl).local_ = ((a.dev || a.offline) || a.local_) := by
  simp [mkResolved, applyOffline_local, applyDev_offline, applyDev_local]

theorem mkResolved_output (a : Args) (lvl : LogLevel) :
    (mkResolved a lvl).output = (dedupLoop [] a.output).1 := by
  simp [mkResolved]

theorem mkResolved_target (a : Args) (lvl : LogLevel) : (mkResolved a lvl).target = a.target := by
  simp [mkResolved, applyOffline_target, applyDev_target]

theorem mkResolved_output_file (a : Args) (lvl : LogLevel) :
    (mkResolved a lvl).output_file = a.output_file := by
  simp [mkResolved, applyOffline_output_file, applyDev_output_file]

theorem mkResolved_verbose (a : Args) (lvl : LogLevel) :
    (mkResolved a lvl).verbose = (a.dev || a.verbose) := by
  simp [mkResolved, applyOffline_verbose, applyDev_verbose]

theorem mkResolved_log_level (a : Args) (lvl : LogLevel) :
    (mkResolved a lvl).log_level = LogLevelField.level lvl := by
  simp [mkResolved]

theorem mkResolved_ansi_log (a : Args) (lvl : LogLevel) :
    (mkResolved a lvl).ansi_log =
      (if Output.ansi ∈ (dedupLoop [] a.output).1 then
        (if lvl.toNat ≤ LogLevel.INFO.toNat then true else a.ansi_log)
      else a.ansi_log) := by
  simp [mkResolved]

theorem mkResolved_ndc (a : Args) (lvl : LogLevel) :
    (mkResolved a lvl).no_download_checks = ((a.dev || a.offline) || a.no_download_checks) := by
  simp [mkResolved, applyOffline_ndc, applyDev_offline, applyDev_ndc]

theorem mkResolved_nid (a : Args) (lvl : LogLevel) :
    (mkResolved a lvl).no_install_dependencies =
      ((a.dev || a.offline) || a.no_install_dependencies) := by
  simp [mkResolved, applyOffline_nid, applyDev_offline, applyDev_nid]

theorem mkResolved_ansi_output (a : Args) (lvl : LogLevel) :
    (mkResolved a lvl).ansi_output =
      (if a.dev = true then
        (if Output.ansi ∈ a.output then true else a.ansi_output)
      else a.ansi_output) := by
  simp [mkResolved, applyOffline_ansi_output, applyDev_ansi_output]

/-- Membership in the deduplicated output list is membership in the input. -/
theorem mem_dedup_output (x : Output) (l : List Output) :
    x ∈ (dedupLoop [] l).1 ↔ x ∈ l := by
  rw [dedupLoop_fst_mem]
  simp

/-- The deduplicated output list has no duplicates. -/
theorem dedup_output_nodup (l : List Output) : ((dedupLoop [] l).1).Nodup :=
  dedupLoop_fst_nodup l [] List.nodup_nil

/-- Re-running the duplicate filter on an already filtered list changes
nothing and warns about nothing. -/
theorem dedup_output_idem (l : List Output) :
    dedupLoop [] (dedupLoop [] l).1 = ((dedupLoop [] l).1, []) := by
  rw [dedupLoop_nodup_fix _ [] (dedup_output_nodup l) (by simp)]
  simp

/-! Projections of `restoreLogLevelName`. -/

theorem restore_slug (a : Args) : (restoreLogLevelName a).slug = a.slug := by
  simp [restoreLogLevelName]

theorem restore_dev (a : Args) : (restoreLogLevelName a).dev = a.dev := by
  simp [restoreLogLevelName]

theorem restore_offline (a : Args) : (restoreLogLevelName a).offline = a.offline := by
  simp [restoreLogLevelName]

theorem restore_local (a : Args) : (restoreLogLevelName a).local_ = a.local_ := by
  simp [restoreLogLevelName]

theorem restore_output (a : Args) : (restoreLogLevelName a).output = a.output := by
  simp [restoreLogLevelName]

theorem restore_target (a : Args) : (restoreLogLevelName a).target = a.target := by
  simp [restoreLogLevelName]

theorem restore_output_file (a : Args) : (restoreLogLevelName a).output_file = a.output_file := by
  simp [restoreLogLevelName]

theorem restore_verbose (a : Args) : (restoreLogLevelName a).verbose = a.verbose := by
  simp [restoreLogLevelName]

theorem restore_ansi_log (a : Args) : (restoreLogLevelName a).ansi_log = a.ansi_log := by
  simp [restoreLogLevelName]

theorem restore_ndc (a : Args) :
    (restoreLogLevelName a).no_download_checks = a.no_download_checks := by
  simp [restoreLogLevelName]

theorem restore_nid (a : Args) :
    (restoreLogLevelName a).no_install_dependencies = a.no_install_dependencies := by
  simp [restoreLogLevelName]

theorem restore_ansi_output (a : Args) : (restoreLogLevelName a).ansi_output = a.ansi_output := by
  simp [restoreLogLevelName]

theorem restore_log_level_of_level (a : Args) (l : LogLevel)
    (h : a.log_level = LogLevelField.level l) :
    (restoreLogLevelName a).log_level = LogLevelField.name l.levelName := by
  simp [restoreLogLevelName, h]

/-- Resolving the plan obtained from `validate_args` again (with the log
level rendered back to its name) gives the same plan. -/
theorem mkResolved_idem (a : Args) (lvl : LogLevel) :
    mkResolved (restoreLogLevelName (mkResolved a lvl)) lvl = mkResolved a lvl := by
  ext : 1
  · simp only [mkResolved_slug, restore_slug]
  · simp only [mkResolved_dev, restore_dev]
  · simp only [mkResolved_offline, restore_dev, restore_offline, mkResolved_dev]
    cases a.dev <;> simp
  · simp only [mkResolved_local, restore_dev, restore_offline, restore_local, mkResolved_dev,
      mkResolved_offline]
    cases a.dev <;> cases a.offline <;> simp
  · simp only [mkResolved_output, restore_output, dedup_output_idem]
  · simp only [mkResolved_target, restore_target]
  · simp only [mkResolved_output_file, restore_output_file]
  · simp only [mkResolved_verbose, restore_dev, restore_verbose, mkResolved_dev,
      mkResolved_offline]
    cases a.dev <;> simp
  · simp only [mkResolved_log_level]
  · simp only [mkResolved_ansi_log, restore_output, restore_ansi_log, mkResolved_output,
      dedup_output_idem]
    by_cases hm : Output.ansi ∈ (dedupLoop [] a.output).1 <;>
      by_cases hl : lvl.toNat ≤ LogLevel.INFO.toNat <;>
        simp [hm, hl]
  · simp only [mkResolved_ndc, restore_dev, restore_offline, restore_ndc, mkResolved_dev,
      mkResolved_offline]
    cases a.dev <;> cases a.offline <;> simp
  · simp only [mkResolved_nid, restore_dev, restore_offline, restore_nid, mkResolved_dev,
      mkResolved_offline]
    cases a.dev <;> cases a.offline <;> simp
  · simp only [mkResolved_ansi_output, restore_dev, restore_output, restore_ansi_output,
      mkResolved_dev, mkResolved_output, mkResolved_ansi_log]
    by_cases hd : a.dev = true <;>
      by_cases hm : Output.ansi ∈ a.output <;>
        simp [hd, hm, mem_dedup_output, mkResolved_ansi_output]

/-! Warnings bookkeeping. -/

theorem uselessWarnings_no_dup (a : Args) :
    (uselessWarnings a).countP Warning.isDup = 0 := by
  unfold uselessWarnings
  split_ifs <;> simp [Warning.isDup]

theorem mkWarnings_dup_count (a : Args) (lvl : LogLevel) :
    (mkWarnings a lvl).countP Warning.isDup = (dedupLoop [] a.output).2.length := by
  unfold mkWarnings
  rw [List.countP_append, List.countP_append]
  rw [uselessWarnings_no_dup]
  have h2 : (dedupLoop [] a.output).2.countP Warning.isDup = (dedupLoop [] a.output).2.length :=
    List.countP_eq_length.mpr (fun w hw => dedupLoop_snd_dup _ _ w hw)
  rw [h2]
  have h3 : (if Output.ansi ∈ (dedupLoop [] a.output).1 then ([] : List Warning)
      else if a.ansi_log then [Warning.ansiLogNoEffect] else []).countP Warning.isDup = 0 := by
    split_ifs <;> simp [Warning.isDup]
  rw [h3]
  omega

/-! Stepping lemmas for the `excepthook` loop. -/

theorem excepthookLoop_stop (k : ExcKind) (v : Bool) (l : List Output) (i : Nat)
    (h : ¬ i < l.length) :
    excepthookLoop k v l i = ([], ExitAction.exited 1) := by
  rw [excepthookLoop.eq_def, dif_neg h]

theorem excepthookLoop_return (k : ExcKind) (v : Bool) (l : List Output) (i : Nat)
    (h : i < l.length)
    (hr : k = ExcKind.otherBase ∧
      (l.get ⟨i, h⟩ = Output.ansi ∨ l.get ⟨i, h⟩ = Output.html)) :
    excepthookLoop k v l i = ([], ExitAction.returned) := by
  rw [excepthookLoop.eq_def, dif_pos h, if_pos hr]

theorem excepthookLoop_step (k : ExcKind) (v : Bool) (l : List Output) (i : Nat)
    (h : i < l.length)
    (hnr : ¬ (k = ExcKind.otherBase ∧
      (l.get ⟨i, h⟩ = Output.ansi ∨ l.get ⟨i, h⟩ = Output.html))) :
    excepthookLoop k v l i =
      ((l.get ⟨i, h⟩, channelEvents k v (l.get ⟨i, h⟩)) ::
        (excepthookLoop k v (l.erase (l.get ⟨i, h⟩)) (i + 1)).1,
       (excepthookLoop k v (l.erase (l.get ⟨i, h⟩)) (i + 1)).2) := by
  rw [excepthookLoop.eq_def, dif_pos h, if_neg hnr]

theorem excepthookLoop_exits (k : ExcKind) (hk : k ≠ ExcKind.otherBase) (v : Bool) :
    ∀ n (l : List Output) (i : Nat), l.length ≤ n →
      (excepthookLoop k v l i).2 = ExitAction.exited 1 := by
  intro n
  induction n with
  | zero =>
    intro l i hl
    rw [excepthookLoop_stop k v l i (by omega)]
  | succ n ih =>
    intro l i hl
    by_cases h : i < l.length
    · rw [excepthookLoop_step k v l i h (fun hc => hk hc.1)]
      refine ih (l.erase (l.get ⟨i, h⟩)) (i + 1) ?_
      rw [List.length_erase_of_mem (l.get_mem _ _)]
      omega
    · rw [excepthookLoop_stop k v l i h]

/-! Stepping and characterization lemmas for the polling loop. -/

theorem notReady_excl {r : Response} (h : notReady r) : ¬ badStatus r ∧ ¬ isReady r := by
  rcases h with h404 | ⟨h200, hnone⟩
  · refine ⟨fun hb => hb.1 h404, fun hr => ?_⟩
    have := hr.1
    rw [h404] at this
    exact absurd this (by decide)
  · exact ⟨fun hb => hb.2 h200, fun hr => hr.2 hnone⟩

theorem not_notReady {r : Response} (h : ¬ notReady r) : badStatus r ∨ isReady r := by
  by_cases h404 : r.status = 404
  · exact absurd (Or.inl h404) h
  · by_cases h200 : r.status = 200
    · exact Or.inr ⟨h200, fun hn => h (Or.inr ⟨h200, hn⟩)⟩
    · exact Or.inl ⟨h404, h200⟩

theorem pollLoop_spec (resp : Nat → Response) :
    ∀ fuel i,
      ((∀ j, j < fuel → notReady (resp (i + j))) ∧
        pollLoop resp i fuel = (fuel, LoopOut.timedOut))
      ∨ (∃ k, k < fuel ∧ (∀ j, j < k → notReady (resp (i + j))) ∧
          ((badStatus (resp (i + k)) ∧
              pollLoop resp i fuel = (k + 1, LoopOut.badStatus (resp (i + k))))
           ∨ (isReady (resp (i + k)) ∧
              pollLoop resp i fuel = (k + 1, LoopOut.ready (resp (i + k)))))) := by
  intro fuel
  induction fuel with
  | zero =>
    intro i
    exact Or.inl ⟨fun j hj => absurd hj (Nat.not_lt_zero j), rfl⟩
  | succ fuel ih =>
    intro i
    by_cases hb : (resp i).status = 404 ∨ (resp i).status = 200
    · by_cases hr : (resp i).status = 200 ∧ (resp i).received_at ≠ none
      · refine Or.inr ⟨0, Nat.succ_pos fuel, fun j hj => absurd hj (Nat.not_lt_zero j),
          Or.inr ⟨?_, ?_⟩⟩
        · simpa using hr
        · simp only [pollLoop, if_neg (not_not_intro hb), if_pos hr]
          simp
      · have hcur : notReady (resp i) := by
          rcases hb with h404 | h200
          · exact Or.inl h404
          · refine Or.inr ⟨h200, ?_⟩
            by_contra hne
            exact hr ⟨h200, hne⟩
        have hstep : pollLoop resp i (fuel + 1) =
            ((pollLoop resp (i + 1) fuel).1 + 1, (pollLoop resp (i + 1) fuel).2) := by
          simp only [pollLoop, if_neg (not_not_intro hb), if_neg hr]
        rcases ih (i + 1) with ⟨hall, heq⟩ | ⟨k, hk, hnr, hcase⟩
        · refine Or.inl ⟨?_, ?_⟩
          · intro j hj
            cases j with
            | zero => simpa using hcur
            | succ j =>
              have := hall j (by omega)
              have hidx : i + 1 + j = i + (j + 1) := by omega
              rwa [hidx] at this
          · rw [hstep, heq]
        · refine Or.inr ⟨k + 1, by omega, ?_, ?_⟩
          · intro j hj
            cases j with
            | zero => simpa using hcur
            | succ j =>
              have := hnr j (by omega)
              have hidx : i + 1 + j = i + (j + 1) := by omega
              rwa [hidx] at this
          · have hidx : i + 1 + k = i + (k + 1) := by omega
            rcases hcase with ⟨hbs, heq⟩ | ⟨hrd, heq⟩
            · refine Or.inl ⟨by rwa [hidx] at hbs, ?_⟩
              rw [hstep, heq, hidx]
            · refine Or.inr ⟨by rwa [hidx] at hrd, ?_⟩
              rw [hstep, heq, hidx]
    · refine Or.inr ⟨0, Nat.succ_pos fuel, fun j hj => absurd hj (Nat.not_lt_zero j),
        Or.inl ⟨?_, ?_⟩⟩
      · simp only [Nat.add_zero]
        exact ⟨fun h => hb (Or.inl h), fun h => hb (Or.inr h)⟩
      · simp only [pollLoop, if_pos hb]
        simp

theorem pollLoop_at_first (resp : Nat → Response) (pings k : Nat) (hk : k < pings)
    (hnr : ∀ i, i < k → notReady (resp i)) (hterm : ¬ notReady (resp k)) :
    (badStatus (resp k) ∧ pollLoop resp 0 pings = (k + 1, LoopOut.badStatus (resp k)))
    ∨ (isReady (resp k) ∧ pollLoop resp 0 pings = (k + 1, LoopOut.ready (resp k))) := by
  rcases pollLoop_spec resp pings 0 with ⟨hall, _⟩ | ⟨j, hj, hnr', hcase⟩
  · exact absurd (by simpa using hall k hk) hterm
  · have hjk : j = k := by
      by_contra hne
      rcases Nat.lt_or_ge j k with hlt | hge
      · have hnot := hnr j hlt
        rcases hcase with ⟨hbs, _⟩ | ⟨hrd, _⟩
        · exact (notReady_excl hnot).1 (by simpa using hbs)
        · exact (notReady_excl hnot).2 (by simpa using hrd)
      · have hlt' : k < j := by omega
        exact hterm (by simpa using hnr' k hlt')
    subst hjk
    simpa using hcase

/-! Claims. -/

/-- Claim C1: the claim says developer mode with the log-level option left
at its default forces the elevated (INFO) log level.  The code does not:
`validate_args` leaves the log level at WARNING for `--dev` with the
default log level (it sets an unrelated `ansi_output` attribute instead),
contradicting the code's own comment and the `--dev` help text. -/
theorem dev_mode_log_level_not_elevated :
    (validate_args devDefaultArgs).map (fun p => p.1.log_level) =
      some (LogLevelField.level LogLevel.WARNING) ∧
    (validate_args devDefaultArgs).map (fun p => p.1.log_level) ≠
      some (LogLevelField.level LogLevel.INFO) := by
  decide

/-- Claim C2: the claim says every channel in the active output-channel set
receives its error output.  The code removes each channel from the very
list the `for` statement iterates, so with the default channel list
`[ansi, html]` only `ansi` is serviced and `html` is silently skipped. -/
theorem excepthook_skips_second_channel :
    excepthook ExcKind.domainError [Output.ansi, Output.html] false =
      ([(Output.ansi, [Event.printedDomain])], ExitAction.exited 1) := by
  simp [excepthook, excepthookLoop, channelEvents, ansiEvents]

/-- Claim C3 (counterexample): option resolution is not idempotent as
claimed: re-applying `validate_args` to an already-resolved plan fails,
because the log-level lookup expects the textual name while the resolved
plan holds the enum member. -/
theorem validate_args_reapply_fails :
    (validate_args baseArgs).isSome = true ∧
    (validate_args baseArgs).bind (fun p => validate_args p.1) = none := by
  decide

/-- Claim C3 (amended): re-resolving an already-resolved plan succeeds and
yields the same plan once the log level is rendered back to its textual
name; apart from the log-level re-parse, resolution is idempotent. -/
theorem validate_args_idempotent_up_to_log_level_name (a r : Args) (ws : List Warning)
    (h : validate_args a = some (r, ws)) :
    (validate_args (restoreLogLevelName r)).map Prod.fst = some r := by
  obtain ⟨lvl, -, rfl, -⟩ := validate_args_inv a r ws h
  have hp2 : parseLogLevel (restoreLogLevelName (mkResolved a lvl)).log_level = some lvl := by
    rw [restore_log_level_of_level _ lvl (mkResolved_log_level a lvl), parse_levelName]
  rw [validate_args_eq _ lvl hp2, mkResolved_idem]
  rfl

/-- Witness for claim C3's amended theorem at a concrete resolved plan. -/
theorem validate_args_idempotent_up_to_log_level_name_witness :
    (validate_args (restoreLogLevelName dupResolved)).map Prod.fst = some dupResolved :=
  validate_args_idempotent_up_to_log_level_name dupArgs dupResolved
    [Warning.duplicateOutput Output.html] (by decide)

/-- Claim C4 (counterexample): a `BaseException` that is neither an
`Exception` nor a `KeyboardInterrupt` makes the hook return without
exiting (the code comment says "better just let it go"), so not every
uncaught failure reaching the hook ends in an explicit exit status 1. -/
theorem excepthook_other_base_no_exit :
    excepthook ExcKind.otherBase [Output.ansi] true = ([], ExitAction.returned) := by
  simp [excepthook, excepthookLoop]

/-- Claim C4 (amended): for every uncaught failure except a non-`Exception`
`BaseException` other than `KeyboardInterrupt` — in particular for every
ordinary exception and for a user cancellation — the hook ends the process
with exit status 1 after the channel-consumption loop. -/
theorem excepthook_exit_status_one (k : ExcKind) (outputs : List Output) (v : Bool)
    (hk : k ≠ ExcKind.otherBase) :
    (excepthook k outputs v).2 = ExitAction.exited 1 :=
  excepthookLoop_exits k hk v outputs.length outputs 0 le_rfl

/-- Witness for claim C4's amended theorem: a keyboard interrupt with the
default channel list exits with status 1. -/
theorem excepthook_exit_status_one_witness :
    (excepthook ExcKind.keyboardInterrupt [Output.ansi, Output.html] false).2 =
      ExitAction.exited 1 :=
  excepthook_exit_status_one ExcKind.keyboardInterrupt [Output.ansi, Output.html] false
    (by decide)

/-- Claim C5: when every response is "not ready" (404, or 200 with a null
`received_at`), `await_results` issues exactly `pings` queries and then
raises the timeout error — never fewer, never more. -/
theorem await_results_timeout_exact (resp : Nat → Response) (ch slug : String) (pings : Nat)
    (h : ∀ i, i < pings → notReady (resp i)) :
    await_results resp ch slug pings = (pings, Except.error (RemoteErr.timeout ch)) := by
  rcases pollLoop_spec resp pings 0 with ⟨_, heq⟩ | ⟨k, hk, _, hcase⟩
  · unfold await_results
    rw [heq]
  · exfalso
    have hn := h k hk
    rcases hcase with ⟨hbs, _⟩ | ⟨hrd, _⟩
    · exact (notReady_excl hn).1 (by simpa using hbs)
    · exact (notReady_excl hn).2 (by simpa using hrd)

/-- Witness for claim C5: 45 straight 404 responses give exactly 45 queries
and the timeout error. -/
theorem await_results_timeout_exact_witness :
    await_results (fun _ => notReadyResp) "c" "s" default_pings =
      (default_pings, Except.error (RemoteErr.timeout "c")) :=
  await_results_timeout_exact (fun _ => notReadyResp) "c" "s" default_pings
    (fun _ _ => Or.inl rfl)

/-- Claim C6 (counterexample): a first response with status 200 and a
non-null timestamp does not guarantee success: when its nested `check50`
result is absent the poller raises `RemoteCheckError` instead. -/
theorem await_results_ready_without_payload_fails :
    isReady readyEmptyResp ∧
    await_results (fun _ => readyEmptyResp) "c" "s" 45 =
      (1, Except.error (RemoteErr.serviceBody readyEmptyResp)) := by
  constructor
  · exact ⟨rfl, by simp [readyEmptyResp]⟩
  · rfl

/-- Claim C6 (amended): the poller stops at the first ready (status-200,
timestamped) response, issuing no further queries, and returns successfully
provided that response carries a present nested result without an embedded
error field; in particular 44 consecutive 404s followed by a well-formed
ready response on poll 45 succeed with no timeout. -/
theorem await_results_first_ready_success (resp : Nat → Response) (ch slug : String)
    (pings k : Nat) (p : Check50Payload) (hk : k < pings)
    (hnr : ∀ i, i < k → notReady (resp i)) (hrd : isReady (resp k))
    (hp : (resp k).check50 = some p) (hperr : p.hasError = false) :
    await_results resp ch slug pings =
      (k + 1, Except.ok ((resp k).tag_hash,
        { slug := p.slug, results := p.results, version := p.version })) := by
  have hterm : ¬ notReady (resp k) := fun hn => (notReady_excl hn).2 hrd
  rcases pollLoop_at_first resp pings k hk hnr hterm with ⟨hbs, _⟩ | ⟨_, heq⟩
  · exact absurd hrd.1 hbs.2
  · unfold await_results
    rw [heq]
    simp [hp, hperr]

/-- Witness for claim C6's amended theorem: end-to-end scenario B — 44
consecutive 404 polls, then 200-with-timestamp on poll 45. -/
theorem await_results_first_ready_success_witness :
    await_results scenarioB "c" "s" 45 =
      (45, Except.ok ("tag123",
        { slug := "cs50/problems/2022/hello", results := ["check passed"],
          version := "3.3.7" })) := by
  have h := await_results_first_ready_success scenarioB "c" "s" 45 44 goodPayload
    (by decide)
    (fun i hi => by
      simp only [scenarioB, if_pos hi]
      exact Or.inl rfl)
    (by simp [scenarioB, readyResp, isReady])
    (by simp [scenarioB, readyResp])
    rfl
  simpa [scenarioB, readyResp, goodPayload] using h

/-- Claim C7: the poller raises `RemoteCheckError` exactly when some
attempt's status lies outside 200 and 404 (immediately, carrying the
response body, with no further polling), or the first ready response has an
absent nested result or an embedded error field; otherwise a ready response
yields the tag hash and the unified result payload. -/
theorem await_results_service_error_characterization (resp : Nat → Response)
    (ch slug : String) (pings : Nat) :
    (∀ k, k < pings → (∀ i, i < k → notReady (resp i)) → badStatus (resp k) →
      await_results resp ch slug pings =
        (k + 1, Except.error (RemoteErr.serviceBody (resp k))))
    ∧ (∀ k, k < pings → (∀ i, i < k → notReady (resp i)) → isReady (resp k) →
        (resp k).check50 = none →
        await_results resp ch slug pings =
          (k + 1, Except.error (RemoteErr.serviceBody (resp k))))
    ∧ (∀ k p, k < pings → (∀ i, i < k → notReady (resp i)) → isReady (resp k) →
        (resp k).check50 = some p → p.hasError = true →
        await_results resp ch slug pings =
          (k + 1, Except.error (RemoteErr.serviceCheck50 p)))
    ∧ ((∃ e, (await_results resp ch slug pings).2 = Except.error e ∧ e.isService = true) ↔
        (∃ k, k < pings ∧ (∀ i, i < k → notReady (resp i)) ∧
          (badStatus (resp k) ∨ (isReady (resp k) ∧
            ((resp k).check50 = none ∨
              ∃ p, (resp k).check50 = some p ∧ p.hasError = true))))) := by
  have h1 : ∀ k, k < pings → (∀ i, i < k → notReady (resp i)) → badStatus (resp k) →
      await_results resp ch slug pings =
        (k + 1, Except.error (RemoteErr.serviceBody (resp k))) := by
    intro k hk hnr hbs
    have hterm : ¬ notReady (resp k) := fun hn => (notReady_excl hn).1 hbs
    rcases pollLoop_at_first resp pings k hk hnr hterm with ⟨_, heq⟩ | ⟨hrd, _⟩
    · unfold await_results
      rw [heq]
    · exact absurd hrd.1 hbs.2
  have h2 : ∀ k, k < pings → (∀ i, i < k → notReady (resp i)) → isReady (resp k) →
      (resp k).check50 = none →
      await_results resp ch slug pings =
        (k + 1, Except.error (RemoteErr.serviceBody (resp k))) := by
    intro k hk hnr hrd hc
    have hterm : ¬ notReady (resp k) := fun hn => (notReady_excl hn).2 hrd
    rcases pollLoop_at_first resp pings k hk hnr hterm with ⟨hbs, _⟩ | ⟨_, heq⟩
    · exact absurd hrd.1 hbs.2
    · unfold await_results
      rw [heq]
      simp [hc]
  have h3 : ∀ k p, k < pings → (∀ i, i < k → notReady (resp i)) → isReady (resp k) →
      (resp k).check50 = some p → p.hasError = true →
      await_results resp ch slug pings =
        (k + 1, Except.error (RemoteErr.serviceCheck50 p)) := by
    intro k p hk hnr hrd hc hperr
    have hterm : ¬ notReady (resp k) := fun hn => (notReady_excl hn).2 hrd
    rcases pollLoop_at_first resp pings k hk hnr hterm with ⟨hbs, _⟩ | ⟨_, heq⟩
    · exact absurd hrd.1 hbs.2
    · unfold await_results
      rw [heq]
      simp [hc, hperr]
  refine ⟨h1, h2, h3, ?_, ?_⟩
  · rintro ⟨e, he, hsvc⟩
    rcases pollLoop_spec resp pings 0 with ⟨_, heq⟩ | ⟨k, hk, hnr, hcase⟩
    · unfold await_results at he
      rw [heq] at he
      simp only [Except.error.injEq] at he
      rw [← he] at hsvc
      exact absurd hsvc (by simp [RemoteErr.isService])
    · have hnr0 : ∀ i, i < k → notReady (resp i) := fun i hi => by simpa using hnr i hi
      rcases hcase with ⟨hbs, heq⟩ | ⟨hrd, heq⟩
      · exact ⟨k, hk, hnr0, Or.inl (by simpa using hbs)⟩
      · cases hc : (resp (0 + k)).check50 with
        | none =>
          exact ⟨k, hk, hnr0, Or.inr ⟨by simpa using hrd, Or.inl (by simpa using hc)⟩⟩
        | some p =>
          have hc' : (resp k).check50 = some p := by simpa using hc
          cases hperr : p.hasError with
          | true =>
            exact ⟨k, hk, hnr0, Or.inr ⟨by simpa using hrd, Or.inr ⟨p, hc', hperr⟩⟩⟩
          | false =>
            exfalso
            unfold await_results at he
            rw [heq] at he
            simp [hc', hperr] at he
  · rintro ⟨k, hk, hnr, hbs | ⟨hrd, hnone | ⟨p, hp, hperr⟩⟩⟩
    · exact ⟨RemoteErr.serviceBody (resp k), by rw [h1 k hk hnr hbs], rfl⟩
    · exact ⟨RemoteErr.serviceBody (resp k), by rw [h2 k hk hnr hrd hnone], rfl⟩
    · exact ⟨RemoteErr.serviceCheck50 p, by rw [h3 k p hk hnr hrd hp hperr], rfl⟩

/-- Witness for claim C7: a 500 response on the first attempt immediately
raises `RemoteCheckError` carrying the response body, after one query. -/
theorem await_results_service_error_characterization_witness :
    await_results (fun _ => resp500) "c" "s" 45 =
      (1, Except.error (RemoteErr.serviceBody resp500)) :=
  (await_results_service_error_characterization (fun _ => resp500) "c" "s" 45).1 0
    (by decide) (fun i hi => absurd hi (Nat.not_lt_zero i)) (by constructor <;> decide)

/-- Claim C8: every successfully resolved plan satisfies the implication
invariants: developer mode implies offline and verbose, and offline implies
local, no-download-checks and no-install-dependencies. -/
theorem validate_args_implication_invariants (a r : Args) (ws : List Warning)
    (h : validate_args a = some (r, ws)) :
    (r.dev = true → r.offline = true ∧ r.verbose = true) ∧
    (r.offline = true → r.local_ = true ∧ r.no_download_checks = true ∧
      r.no_install_dependencies = true) := by
  obtain ⟨lvl, -, rfl, -⟩ := validate_args_inv a r ws h
  constructor
  · intro hd
    rw [mkResolved_dev] at hd
    simp [mkResolved_offline, mkResolved_verbose, hd]
  · intro ho
    rw [mkResolved_offline] at ho
    simp [mkResolved_local, mkResolved_ndc, mkResolved_nid, ho]

/-- Witness for claim C8 at the `--dev` invocation. -/
theorem validate_args_implication_invariants_witness :
    devResolved.offline = true ∧ devResolved.verbose = true ∧ devResolved.local_ = true ∧
      devResolved.no_download_checks = true ∧ devResolved.no_install_dependencies = true := by
  have h := validate_args_implication_invariants devDefaultArgs devResolved [] (by decide)
  have h1 := h.1 (by decide)
  have h2 := h.2 (by decide)
  exact ⟨h1.1, h1.2, h2.1, h2.2.1, h2.2.2⟩

/-- Claim C9: the resolved output-channel sequence has no duplicates and
preserves first-occurrence order, and each duplicate occurrence produces a
non-fatal warning (resolution still succeeds): the number of
duplicate-output warnings is exactly the number of dropped occurrences. -/
theorem validate_args_output_dedup (a r : Args) (ws : List Warning)
    (h : validate_args a = some (r, ws)) :
    r.output.Nodup ∧ r.output = firstOccurrenceDedup a.output ∧
      ws.countP Warning.isDup = a.output.length - r.output.length := by
  obtain ⟨lvl, -, rfl, rfl⟩ := validate_args_inv a r ws h
  refine ⟨?_, ?_, ?_⟩
  · rw [mkResolved_output]
    exact dedup_output_nodup _
  · rw [mkResolved_output, dedupLoop_fst_firstOccurrenceDedup]
  · rw [mkWarnings_dup_count, mkResolved_output]
    have hlen := dedupLoop_length a.output []
    simp only [List.length_nil, Nat.zero_add] at hlen
    omega

/-- Witness for claim C9 at input `[html, ansi, html]`, which resolves to
`[html, ansi]` with one duplicate warning. -/
theorem validate_args_output_dedup_witness :
    dupResolved.output.Nodup ∧
      dupResolved.output = firstOccurrenceDedup dupArgs.output ∧
      ([Warning.duplicateOutput Output.html] : List Warning).countP Warning.isDup =
        dupArgs.output.length - dupResolved.output.length :=
  validate_args_output_dedup dupArgs dupResolved [Warning.duplicateOutput Output.html]
    (by decide)

/-- Claim C10: the "did you mean" list appended to the invalid-slug message
contains at most 3 identifiers (exactly 3 when the similarity search
returns at least 3), and when the search returns none the message contains
no suggestion list at all. -/
theorem invalid_slug_suggestion_bound (slug : String) (similar_slugs : List String)
    (offline : Bool) :
    (shownSuggestions similar_slugs).length ≤ 3 ∧
    (3 ≤ similar_slugs.length → (shownSuggestions similar_slugs).length = 3) ∧
    (similar_slugs = [] →
      raise_invalid_slug slug similar_slugs offline =
        (if offline then
          "Could not find checks for " ++ slug ++ "." ++
            "\nIf you are confident the slug is correct and you have an internet connection, try running without --offline."
        else "Could not find checks for " ++ slug ++ ".")) := by
  refine ⟨?_, ?_, ?_⟩
  · simp only [shownSuggestions, List.length_take]
    omega
  · intro h
    simp only [shownSuggestions, List.length_take]
    omega
  · intro h
    subst h
    simp [raise_invalid_slug, shownSuggestions]

/-- Witness for claim C10: four candidates are truncated to 3, and an empty
search result yields a message with no suggestion list. -/
theorem invalid_slug_suggestion_bound_witness :
    (shownSuggestions ["a", "b", "c", "d"]).length = 3 ∧
      raise_invalid_slug "x" [] false = "Could not find checks for x." := by
  refine ⟨(invalid_slug_suggestion_bound "x" ["a", "b", "c", "d"] false).2.1 (by decide), ?_⟩
  have h := (invalid_slug_suggestion_bound "x" [] false).2.2 rfl
  rw [h]
  decide

end Check50
